import Mathlib

/-!
Shallow embedding of `src/server.js` (ZarKos dashboard server).

The server is a thin Express application: an authentication gate
(`isAuthenticated`), a guild selector (`/dashboard`), three guild-scoped
pages (`/dashboard/:guildId`, `.../aichat`, `.../suggestions`), and nine
JSON proxy endpoints that forward one upstream call each to the bot API.

Modelling choices:
* The upstream bot API (`axios` through `callBotAPI`) is an oracle
  `Api : UpstreamCall → Except String Json`: `ok` is a 2xx response with
  a parsed JSON body, `error msg` is any transport or non-2xx failure
  (the `catch` branch in JS) with `msg` the error message.
* Each route handler becomes a pure function of the oracle, the
  authenticated identity and the route parameters, returning the
  response together with the list of upstream calls it performed and the
  `console.error` log lines it emitted (in order).
* JS `BigInt` is arbitrary precision; Discord permission bitmasks are
  non-negative, so they are embedded as `Nat` (also arbitrary precision),
  and `BigInt(g.permissions) & 0x20n` becomes `g.permissions &&& 0x20`.
* `botData.guilds || []` followed by `botGuilds.includes(g.id)`: `g.id`
  is a string, and `Array.prototype.includes` uses SameValueZero, so only
  string elements of the array can match; the embedding extracts the
  string elements of the `guilds` array (non-array or absent `guilds`
  becomes the empty list, as `|| []` gives for absent/falsy values).
* The session is `Option Identity` (passport's `req.isAuthenticated()`
  is true exactly when a deserialized user is attached to the session).
-/

namespace Zarkos

/-- Minimal JSON value type for upstream bodies and proxied responses. -/
inductive Json where
  | null : Json
  | bool : Bool → Json
  | num : Int → Json
  | str : String → Json
  | arr : List Json → Json
  | obj : List (String × Json) → Json

/-- One entry of the Discord profile's guild list (`req.user.guilds`):
id, name, optional icon hash, and the permission bitmask as carried by
`BigInt(g.permissions)` (arbitrary precision, non-negative). -/
structure GuildMembership where
  id : String
  name : String
  icon : Option String
  permissions : Nat
deriving DecidableEq, Repr

/-- The authenticated identity stored in the session (`req.user`):
only the guild membership list matters to the routes. -/
structure Identity where
  guilds : List GuildMembership
deriving DecidableEq, Repr

/-- One entry of the selector page's `guilds` array (lines 176-181). -/
structure GuildSummary where
  id : String
  name : String
  icon : Option String
  botInGuild : Bool
deriving DecidableEq, Repr

/-- One outbound HTTP request to the bot API: endpoint path, method,
and optional JSON body (the `config` built in `callBotAPI`). -/
structure UpstreamCall where
  endpoint : String
  method : String
  body : Option Json

/-- The upstream bot API as an oracle: `ok` = 2xx with parsed JSON body,
`error msg` = transport failure or non-2xx (the axios `catch` path). -/
abbrev Api := UpstreamCall → Except String Json

/-- A route handler's response. -/
inductive Response where
  | redirect : String → Response
  | renderSelector : List GuildSummary → Response
  | renderGuildPage : String → Json → Response
  | textResponse : Nat → String → Response
  | jsonResponse : Nat → Json → Response

/-- HTTP status of a response (`res.render` is 200, `res.redirect` 302). -/
def Response.status : Response → Nat
  | Response.redirect _ => 302
  | Response.renderSelector _ => 200
  | Response.renderGuildPage _ _ => 200
  | Response.textResponse s _ => s
  | Response.jsonResponse s _ => s

/-- What one request produced: the response, the upstream calls made
(in order), and the `console.error` lines emitted (in order). -/
structure HandlerOut where
  response : Response
  calls : List UpstreamCall
  logs : List String

/-- Field lookup in a JSON object (`botData.guilds`). -/
def lookupField : List (String × Json) → String → Option Json
  | [], _ => none
  | (k, v) :: rest, key => if k == key then some v else lookupField rest key

/-- The string elements of a JSON value list (only string elements of
`botGuilds` can equal the string `g.id` under `includes`). -/
def asString : Json → Option String
  | Json.str s => some s
  | _ => none

/-- `botData.guilds || []`, restricted to the string elements that
`botGuilds.includes(g.id)` can match. -/
def guildsField : Json → List String
  | Json.obj fields =>
    match lookupField fields "guilds" with
    | some (Json.arr xs) => xs.filterMap asString
    | _ => []
  | _ => []

/-- `callBotAPI(endpoint, method, data)` (lines 102-123): performs the
single axios request; on failure logs `API Error [endpoint]: message`
and rethrows. Result: the outcome and the log lines it emitted. -/
def callBotAPI (api : Api) (endpoint method : String) (data : Option Json) :
    Except String Json × List String :=
  match api ⟨endpoint, method, data⟩ with
  | Except.ok d => (Except.ok d, [])
  | Except.error msg => (Except.error msg, ["API Error [" ++ endpoint ++ "]: " ++ msg])

/-- Lines 162-164: `userGuilds.filter(g => (BigInt(g.permissions) & 0x20n) === 0x20n)`. -/
def managedGuilds (userGuilds : List GuildMembership) : List GuildMembership :=
  userGuilds.filter (fun g => g.permissions &&& 0x20 == 0x20)

/-- Lines 167-173: fetch the bot's guild list, degrading to `[]` if the
upstream call fails (`botGuilds = botData.guilds || []` in the `try`,
`botGuilds` left `[]` in the `catch`). -/
def botGuildsOf (api : Api) : List String :=
  match (callBotAPI api "/api/bot/guilds" "GET" none).fst with
  | Except.ok botData => guildsField botData
  | Except.error _ => []

/-- Lines 176-181: one selector entry, with
`botInGuild: botGuilds.includes(g.id)` and the CDN icon URL. -/
def toGuildSummary (botGuilds : List String) (g : GuildMembership) : GuildSummary :=
  { id := g.id
    name := g.name
    icon := g.icon.map (fun ic =>
      "https://cdn.discordapp.com/icons/" ++ g.id ++ "/" ++ ic ++ ".png")
    botInGuild := botGuilds.contains g.id }

/-- The `guilds` array handed to the selector template (lines 162-181):
manage-bit filter, then bot-presence marking. -/
def selectorGuildsOf (api : Api) (identity : Identity) : List GuildSummary :=
  (managedGuilds identity.guilds).map (toGuildSummary (botGuildsOf api))

/-- `GET /dashboard` (lines 156-193). One upstream call
(`/api/bot/guilds`) is always attempted; its failure is caught inside
the handler (logged twice: once by `callBotAPI`, once by the handler's
own `catch`) and the page is still rendered. Nothing in the handler
body can throw past that inner catch, so the outer catch (500 page)
is unreachable in this model. -/
def dashboardSelector (api : Api) (identity : Identity) : HandlerOut :=
  let botCall := callBotAPI api "/api/bot/guilds" "GET" none
  { response := Response.renderSelector (selectorGuildsOf api identity)
    calls := [⟨"/api/bot/guilds", "GET", none⟩]
    logs := botCall.snd ++
      match botCall.fst with
      | Except.ok _ => []
      | Except.error msg => ["Failed to fetch bot guilds: " ++ msg] }

/-- Shared shape of the three guild-scoped page handlers (the bodies at
lines 196-219, 222-244 and 247-268 are identical except for the
template name, the 500 body and the catch's log label): find the guild
in `req.user.guilds` by id; 403 with no upstream call if absent; else
one `/api/guilds/:guildId/info` call, rendered on success, 500 page on
failure (outer catch). -/
def guildPageHandler (api : Api) (identity : Identity) (guildId : String)
    (view errBody errLabel : String) : HandlerOut :=
  match identity.guilds.find? (fun g => g.id == guildId) with
  | none => { response := Response.textResponse 403 "Access denied", calls := [], logs := [] }
  | some _ =>
    let r := callBotAPI api ("/api/guilds/" ++ guildId ++ "/info") "GET" none
    match r.fst with
    | Except.ok guildData =>
      { response := Response.renderGuildPage view guildData
        calls := [⟨"/api/guilds/" ++ guildId ++ "/info", "GET", none⟩]
        logs := r.snd }
    | Except.error msg =>
      { response := Response.textResponse 500 errBody
        calls := [⟨"/api/guilds/" ++ guildId ++ "/info", "GET", none⟩]
        logs := r.snd ++ [errLabel ++ ": " ++ msg] }

/-- `GET /dashboard/:guildId` (lines 196-219). -/
def guildDashboard (api : Api) (identity : Identity) (guildId : String) : HandlerOut :=
  guildPageHandler api identity guildId "dashboard"
    "Error loading guild dashboard" "Guild dashboard error"

/-- `GET /dashboard/:guildId/aichat` (lines 222-244). -/
def guildAichat (api : Api) (identity : Identity) (guildId : String) : HandlerOut :=
  guildPageHandler api identity guildId "aichat"
    "Error loading AI Chat page" "AI Chat page error"

/-- `GET /dashboard/:guildId/suggestions` (lines 247-268). -/
def guildSuggestions (api : Api) (identity : Identity) (guildId : String) : HandlerOut :=
  guildPageHandler api identity guildId "suggestions"
    "Error loading Suggestions page" "Suggestions page error"

/-- Shared shape of the nine API proxy handlers (lines 273-360): one
`callBotAPI` call; on success `res.json(data)` (the upstream body,
status 200); on failure status 500 with `{ error: failMsg }` and no
further logging beyond `callBotAPI`'s own line. -/
def apiProxyHandler (api : Api) (endpoint method : String) (body : Option Json)
    (failMsg : String) : HandlerOut :=
  let r := callBotAPI api endpoint method body
  match r.fst with
  | Except.ok data =>
    { response := Response.jsonResponse 200 data
      calls := [⟨endpoint, method, body⟩]
      logs := r.snd }
  | Except.error _ =>
    { response := Response.jsonResponse 500 (Json.obj [("error", Json.str failMsg)])
      calls := [⟨endpoint, method, body⟩]
      logs := r.snd }

/-- `GET /api/guilds/:guildId/channels` (lines 273-280). -/
def apiGuildChannels (api : Api) (guildId : String) : HandlerOut :=
  apiProxyHandler api ("/api/guilds/" ++ guildId ++ "/channels") "GET" none
    "Failed to fetch channels"

/-- `GET /api/aichat/config/:guildId` (lines 283-290). -/
def apiAichatConfig (api : Api) (guildId : String) : HandlerOut :=
  apiProxyHandler api ("/api/aichat/config/" ++ guildId) "GET" none
    "Failed to fetch config"

/-- `POST /api/aichat/save` (lines 293-300). -/
def apiAichatSave (api : Api) (body : Json) : HandlerOut :=
  apiProxyHandler api "/api/aichat/save" "POST" (some body) "Failed to save config"

/-- `POST /api/aichat/reset-memory` (lines 303-310). -/
def apiAichatResetMemory (api : Api) (body : Json) : HandlerOut :=
  apiProxyHandler api "/api/aichat/reset-memory" "POST" (some body)
    "Failed to reset memory"

/-- `GET /api/analytics` (lines 313-320). -/
def apiAnalytics (api : Api) : HandlerOut :=
  apiProxyHandler api "/api/analytics" "GET" none "Failed to fetch analytics"

/-- `GET /api/suggestions/config/:guildId` (lines 323-330). -/
def apiSuggestionsConfig (api : Api) (guildId : String) : HandlerOut :=
  apiProxyHandler api ("/api/suggestions/config/" ++ guildId) "GET" none
    "Failed to fetch config"

/-- `GET /api/suggestions/stats/:guildId` (lines 333-340). -/
def apiSuggestionsStats (api : Api) (guildId : String) : HandlerOut :=
  apiProxyHandler api ("/api/suggestions/stats/" ++ guildId) "GET" none
    "Failed to fetch stats"

/-- `POST /api/suggestions/setup` (lines 343-350). -/
def apiSuggestionsSetup (api : Api) (body : Json) : HandlerOut :=
  apiProxyHandler api "/api/suggestions/setup" "POST" (some body)
    "Failed to setup suggestions"

/-- `POST /api/suggestions/toggle` (lines 353-360). -/
def apiSuggestionsToggle (api : Api) (body : Json) : HandlerOut :=
  apiProxyHandler api "/api/suggestions/toggle" "POST" (some body)
    "Failed to toggle suggestions"

/-- The routes guarded by the `isAuthenticated` middleware: every
`/dashboard` page and every `/api` endpoint (each route registration
at lines 156, 196, 222, 247, 273, 283, 293, 303, 313, 323, 333, 343,
353 passes `isAuthenticated`). -/
inductive ProtectedRoute where
  | dashboard : ProtectedRoute
  | guildDashboard : String → ProtectedRoute
  | guildAichat : String → ProtectedRoute
  | guildSuggestions : String → ProtectedRoute
  | apiGuildChannels : String → ProtectedRoute
  | apiAichatConfig : String → ProtectedRoute
  | apiAichatSave : Json → ProtectedRoute
  | apiAichatResetMemory : Json → ProtectedRoute
  | apiAnalytics : ProtectedRoute
  | apiSuggestionsConfig : String → ProtectedRoute
  | apiSuggestionsStats : String → ProtectedRoute
  | apiSuggestionsSetup : Json → ProtectedRoute
  | apiSuggestionsToggle : Json → ProtectedRoute

/-- Routing table for the protected routes, once the gate has passed. -/
def dispatchProtected (api : Api) (identity : Identity) : ProtectedRoute → HandlerOut
  | ProtectedRoute.dashboard => dashboardSelector api identity
  | ProtectedRoute.guildDashboard gid => guildDashboard api identity gid
  | ProtectedRoute.guildAichat gid => guildAichat api identity gid
  | ProtectedRoute.guildSuggestions gid => guildSuggestions api identity gid
  | ProtectedRoute.apiGuildChannels gid => apiGuildChannels api gid
  | ProtectedRoute.apiAichatConfig gid => apiAichatConfig api gid
  | ProtectedRoute.apiAichatSave body => apiAichatSave api body
  | ProtectedRoute.apiAichatResetMemory body => apiAichatResetMemory api body
  | ProtectedRoute.apiAnalytics => apiAnalytics api
  | ProtectedRoute.apiSuggestionsConfig gid => apiSuggestionsConfig api gid
  | ProtectedRoute.apiSuggestionsStats gid => apiSuggestionsStats api gid
  | ProtectedRoute.apiSuggestionsSetup body => apiSuggestionsSetup api body
  | ProtectedRoute.apiSuggestionsToggle body => apiSuggestionsToggle api body

/-- `isAuthenticated` (lines 94-99) composed with the guarded handler:
`req.isAuthenticated()` holds exactly when the session carries an
identity; otherwise `res.redirect('/')` with no handler run, hence no
upstream call and no log. -/
def handleProtected (api : Api) (session : Option Identity) (r : ProtectedRoute) :
    HandlerOut :=
  match session with
  | some identity => dispatchProtected api identity r
  | none => { response := Response.redirect "/", calls := [], logs := [] }

/-- `GET /auth/logout` (lines 148-153): `req.logout(cb)` removes the
identity from the session, and only then `cb` sends the redirect to
`/`. Result: the session state after logout, and the response. -/
def logoutHandler (_session : Option Identity) : Option Identity × Response :=
  (none, Response.redirect "/")

/-! Concrete fixtures used by the witness theorems. -/

/-- An upstream that always fails with a transport error. -/
def apiDown : Api := fun _ => Except.error "connect ECONNREFUSED"

/-- An upstream that answers every call with the JSON string `"data"`. -/
def apiOkStr : Api := fun _ => Except.ok (Json.str "data")

/-- A membership whose bitmask is `2^57 + 40`, above the 53-bit
float-safe range, with bit `0x20` set. -/
def gBig : GuildMembership :=
  ⟨"g1", "Guild One", none, 0x00000000000000000020000000000028⟩

/-- A membership without the manage bit (`perm = 0`). -/
def gNoPerm : GuildMembership := ⟨"B", "Guild B", none, 0⟩

/-- Identity of the spec's scenario: member of `A` (manage) and `B`. -/
def identAB : Identity := ⟨[⟨"A", "Guild A", none, 0x20⟩, gNoPerm]⟩

/-! ## Helper lemmas -/

/-- The membership lookup of the guild-scoped pages succeeds exactly
when some membership entry carries the requested id. -/
theorem find_guild_isSome_iff (gs : List GuildMembership) (guildId : String) :
    (gs.find? (fun g => g.id == guildId)).isSome ↔ ∃ g ∈ gs, g.id = guildId := by
  rw [List.find?_isSome]
  simp

/-- A guild-page handler returns the 403 output exactly when no
membership entry carries the requested id. -/
theorem guildPageHandler_denied_iff (api : Api) (identity : Identity)
    (guildId view errBody errLabel : String) :
    guildPageHandler api identity guildId view errBody errLabel =
        { response := Response.textResponse 403 "Access denied", calls := [], logs := [] } ↔
      ¬ ∃ g ∈ identity.guilds, g.id = guildId := by
  rw [← find_guild_isSome_iff]
  unfold guildPageHandler callBotAPI
  cases hfind : identity.guilds.find? (fun g => g.id == guildId) with
  | none => simp
  | some g =>
    cases hapi : api ⟨"/api/guilds/" ++ guildId ++ "/info", "GET", none⟩ with
    | ok d => simp
    | error msg => simp

/-- Status of a guild-page handler: 403 iff no membership entry carries
the requested id (on membership the status is 200 or 500). -/
theorem guildPageHandler_status_iff (api : Api) (identity : Identity)
    (guildId view errBody errLabel : String) :
    (guildPageHandler api identity guildId view errBody errLabel).response.status ≠ 403 ↔
      ∃ g ∈ identity.guilds, g.id = guildId := by
  rw [← find_guild_isSome_iff]
  unfold guildPageHandler callBotAPI
  cases hfind : identity.guilds.find? (fun g => g.id == guildId) with
  | none => simp [Response.status]
  | some g =>
    cases hapi : api ⟨"/api/guilds/" ++ guildId ++ "/info", "GET", none⟩ with
    | ok d => simp [Response.status]
    | error msg => simp [Response.status]

/-- A guild-page handler, on membership and a successful upstream info
call, renders the page with the upstream body and makes that one call. -/
theorem guildPageHandler_ok (api : Api) (identity : Identity)
    (guildId view errBody errLabel : String) (j : Json)
    (hmem : ∃ g ∈ identity.guilds, g.id = guildId)
    (hup : api ⟨"/api/guilds/" ++ guildId ++ "/info", "GET", none⟩ = Except.ok j) :
    guildPageHandler api identity guildId view errBody errLabel =
      { response := Response.renderGuildPage view j
        calls := [⟨"/api/guilds/" ++ guildId ++ "/info", "GET", none⟩]
        logs := [] } := by
  have hsome : (identity.guilds.find? (fun g => g.id == guildId)).isSome :=
    (find_guild_isSome_iff identity.guilds guildId).mpr hmem
  obtain ⟨g, hg⟩ := Option.isSome_iff_exists.mp hsome
  unfold guildPageHandler
  rw [hg]
  unfold callBotAPI
  rw [hup]

/-! ## Claim theorems -/

/-- C1: for every guild membership of the identity, the guild survives
the `/dashboard` selector filter iff its permission bitmask has bit
`0x20` set, with the AND over an arbitrary-precision representation
(`Nat`, matching `BigInt`); the selector page renders exactly the
filtered memberships, marked with bot presence. -/
theorem selector_manage_bit (userGuilds : List GuildMembership) (g : GuildMembership)
    (hmem : g ∈ userGuilds) (api : Api) (identity : Identity) :
    (g ∈ managedGuilds userGuilds ↔ g.permissions &&& 0x20 = 0x20) ∧
    (dashboardSelector api identity).response =
      Response.renderSelector ((managedGuilds identity.guilds).map
        (toGuildSummary (botGuildsOf api))) := by
  constructor
  · unfold managedGuilds
    rw [List.mem_filter]
    constructor
    · intro h
      simpa using h.2
    · intro h
      exact ⟨hmem, by simpa using h⟩
  · rfl

/-- Witness for C1, at the 57-bit bitmask `2^57 + 40` (above the 53-bit
float-safe range) with bit `0x20` set. -/
theorem selector_manage_bit_witness :
    gBig.permissions &&& 0x20 = 0x20 ∧ gBig ∈ managedGuilds [gBig] :=
  ⟨by decide,
    (selector_manage_bit [gBig] gBig (List.Mem.head _) apiDown identAB).1.mpr (by decide)⟩

/-- C2: the three guild-scoped pages are allowed (not 403) iff the guild
id appears anywhere in the identity's memberships — membership alone,
no manage-bit requirement — and on membership with a successful
upstream info call they render with status 200; a member guild failing
the `0x20` check is nonetheless absent from the selector filter. -/
theorem guild_pages_membership_only (api : Api) (identity : Identity) (guildId : String) :
    ((guildDashboard api identity guildId).response.status ≠ 403 ↔
      ∃ g ∈ identity.guilds, g.id = guildId) ∧
    ((guildAichat api identity guildId).response.status ≠ 403 ↔
      ∃ g ∈ identity.guilds, g.id = guildId) ∧
    ((guildSuggestions api identity guildId).response.status ≠ 403 ↔
      ∃ g ∈ identity.guilds, g.id = guildId) ∧
    (∀ j : Json, (∃ g ∈ identity.guilds, g.id = guildId) →
      api ⟨"/api/guilds/" ++ guildId ++ "/info", "GET", none⟩ = Except.ok j →
      (guildDashboard api identity guildId).response = Response.renderGuildPage "dashboard" j ∧
      (guildAichat api identity guildId).response = Response.renderGuildPage "aichat" j ∧
      (guildSuggestions api identity guildId).response = Response.renderGuildPage "suggestions" j ∧
      (guildDashboard api identity guildId).response.status = 200) ∧
    (∀ g ∈ identity.guilds, g.permissions &&& 0x20 ≠ 0x20 → g ∉ managedGuilds identity.guilds) := by
  refine ⟨guildPageHandler_status_iff api identity guildId _ _ _,
    guildPageHandler_status_iff api identity guildId _ _ _,
    guildPageHandler_status_iff api identity guildId _ _ _, ?_, ?_⟩
  · intro j hmem hup
    have h1 := guildPageHandler_ok api identity guildId "dashboard"
      "Error loading guild dashboard" "Guild dashboard error" j hmem hup
    have h2 := guildPageHandler_ok api identity guildId "aichat"
      "Error loading AI Chat page" "AI Chat page error" j hmem hup
    have h3 := guildPageHandler_ok api identity guildId "suggestions"
      "Error loading Suggestions page" "Suggestions page error" j hmem hup
    refine ⟨congrArg HandlerOut.response h1, congrArg HandlerOut.response h2,
      congrArg HandlerOut.response h3, ?_⟩
    show (guildPageHandler api identity guildId "dashboard"
      "Error loading guild dashboard" "Guild dashboard error").response.status = 200
    rw [h1]
    rfl
  · intro g _ hperm hm
    unfold managedGuilds at hm
    exact hperm (by simpa using (List.mem_filter.mp hm).2)

/-- Witness for C2: `identAB` is a member of `B` without the manage
bit; with an always-succeeding upstream, all three pages render. -/
theorem guild_pages_membership_only_witness :
    (guildDashboard apiOkStr identAB "B").response =
        Response.renderGuildPage "dashboard" (Json.str "data") ∧
    (guildAichat apiOkStr identAB "B").response =
        Response.renderGuildPage "aichat" (Json.str "data") ∧
    (guildSuggestions apiOkStr identAB "B").response =
        Response.renderGuildPage "suggestions" (Json.str "data") ∧
    (guildDashboard apiOkStr identAB "B").response.status = 200 :=
  (guild_pages_membership_only apiOkStr identAB "B").2.2.2.1 (Json.str "data")
    ⟨gNoPerm, List.Mem.tail _ (List.Mem.head _), rfl⟩ rfl

/-- C3: for a guild id absent from the identity's memberships,
`/dashboard/:guildId` answers 403 with the fixed body `Access denied`,
zero upstream calls, and no log. -/
theorem guild_dashboard_denied (api : Api) (identity : Identity) (guildId : String)
    (h : ∀ g ∈ identity.guilds, g.id ≠ guildId) :
    guildDashboard api identity guildId =
      { response := Response.textResponse 403 "Access denied", calls := [], logs := [] } := by
  refine (guildPageHandler_denied_iff api identity guildId _ _ _).mpr ?_
  rintro ⟨g, hg, hid⟩
  exact h g hg hid

/-- Witness for C3, at guild id `C`, outside `identAB`'s memberships. -/
theorem guild_dashboard_denied_witness :
    guildDashboard apiDown identAB "C" =
      { response := Response.textResponse 403 "Access denied", calls := [], logs := [] } :=
  guild_dashboard_denied apiDown identAB "C" (by decide)

/-- C4: with no identity in the session, every protected route redirects
to `/` with no upstream call and no content; with an identity present,
the gate passes the request through to the route's handler. -/
theorem auth_gate (api : Api) (r : ProtectedRoute) :
    handleProtected api none r =
        { response := Response.redirect "/", calls := [], logs := [] } ∧
    ∀ identity : Identity,
      handleProtected api (some identity) r = dispatchProtected api identity r :=
  ⟨rfl, fun _ => rfl⟩

/-- C5: if the `/api/bot/guilds` upstream call fails during selector
rendering, the selector page is still rendered (status 200) with every
entry marked `botInGuild = false`, and the failure is logged (by
`callBotAPI` and by the handler's own catch). -/
theorem selector_upstream_failure (api : Api) (identity : Identity) (msg : String)
    (h : api ⟨"/api/bot/guilds", "GET", none⟩ = Except.error msg) :
    (dashboardSelector api identity).response =
        Response.renderSelector
          ((managedGuilds identity.guilds).map (toGuildSummary [])) ∧
    (∀ s ∈ (managedGuilds identity.guilds).map (toGuildSummary ([] : List String)),
        s.botInGuild = false) ∧
    (dashboardSelector api identity).response.status = 200 ∧
    (dashboardSelector api identity).logs =
      ["API Error [" ++ "/api/bot/guilds" ++ "]: " ++ msg,
        "Failed to fetch bot guilds: " ++ msg] := by
  have hbot : botGuildsOf api = [] := by
    unfold botGuildsOf callBotAPI
    rw [h]
  refine ⟨?_, ?_, rfl, ?_⟩
  · show Response.renderSelector (selectorGuildsOf api identity) = _
    unfold selectorGuildsOf
    rw [hbot]
  · intro s hs
    obtain ⟨g, _, hgs⟩ := List.mem_map.mp hs
    rw [← hgs]
    rfl
  · show (dashboardSelector api identity).logs = _
    unfold dashboardSelector callBotAPI
    rw [h]
    rfl

/-- Witness for C5: with the upstream down, `identAB`'s selector still
renders, its single entry has `botInGuild = false`. -/
theorem selector_upstream_failure_witness :
    (dashboardSelector apiDown identAB).response =
        Response.renderSelector
          ((managedGuilds identAB.guilds).map (toGuildSummary [])) ∧
    (∀ s ∈ (managedGuilds identAB.guilds).map (toGuildSummary ([] : List String)),
        s.botInGuild = false) ∧
    (dashboardSelector apiDown identAB).response.status = 200 :=
  let h := selector_upstream_failure apiDown identAB "connect ECONNREFUSED" rfl
  ⟨h.1, h.2.1, h.2.2.1⟩

/-- A proxy handler forwards a successful upstream body verbatim with
status 200, having made exactly that one upstream call. -/
theorem apiProxyHandler_ok (api : Api) (endpoint method : String) (b : Option Json)
    (failMsg : String) (j : Json) (h : api ⟨endpoint, method, b⟩ = Except.ok j) :
    apiProxyHandler api endpoint method b failMsg =
      { response := Response.jsonResponse 200 j
        calls := [⟨endpoint, method, b⟩]
        logs := [] } := by
  unfold apiProxyHandler callBotAPI
  rw [h]

/-- A proxy handler turns a failed upstream call into a 500 with the
fixed per-endpoint message, one (never retried) upstream call, and one
log line carrying the endpoint. -/
theorem apiProxyHandler_err (api : Api) (endpoint method : String) (b : Option Json)
    (failMsg msg : String) (h : api ⟨endpoint, method, b⟩ = Except.error msg) :
    apiProxyHandler api endpoint method b failMsg =
      { response := Response.jsonResponse 500 (Json.obj [("error", Json.str failMsg)])
        calls := [⟨endpoint, method, b⟩]
        logs := ["API Error [" ++ endpoint ++ "]: " ++ msg] } := by
  unfold apiProxyHandler callBotAPI
  rw [h]

/-- C6: every JSON proxy route forwards a successful upstream JSON body
as the same JSON value with status 200, performing exactly one upstream
call (no composition or batching). -/
theorem api_proxy_forwarding (api : Api) (guildId : String) (body : Json) :
    (∀ j, api ⟨"/api/guilds/" ++ guildId ++ "/channels", "GET", none⟩ = Except.ok j →
      apiGuildChannels api guildId =
        { response := Response.jsonResponse 200 j
          calls := [⟨"/api/guilds/" ++ guildId ++ "/channels", "GET", none⟩]
          logs := [] }) ∧
    (∀ j, api ⟨"/api/aichat/config/" ++ guildId, "GET", none⟩ = Except.ok j →
      apiAichatConfig api guildId =
        { response := Response.jsonResponse 200 j
          calls := [⟨"/api/aichat/config/" ++ guildId, "GET", none⟩]
          logs := [] }) ∧
    (∀ j, api ⟨"/api/aichat/save", "POST", some body⟩ = Except.ok j →
      apiAichatSave api body =
        { response := Response.jsonResponse 200 j
          calls := [⟨"/api/aichat/save", "POST", some body⟩]
          logs := [] }) ∧
    (∀ j, api ⟨"/api/aichat/reset-memory", "POST", some body⟩ = Except.ok j →
      apiAichatResetMemory api body =
        { response := Response.jsonResponse 200 j
          calls := [⟨"/api/aichat/reset-memory", "POST", some body⟩]
          logs := [] }) ∧
    (∀ j, api ⟨"/api/analytics", "GET", none⟩ = Except.ok j →
      apiAnalytics api =
        { response := Response.jsonResponse 200 j
          calls := [⟨"/api/analytics", "GET", none⟩]
          logs := [] }) ∧
    (∀ j, api ⟨"/api/suggestions/config/" ++ guildId, "GET", none⟩ = Except.ok j →
      apiSuggestionsConfig api guildId =
        { response := Response.jsonResponse 200 j
          calls := [⟨"/api/suggestions/config/" ++ guildId, "GET", none⟩]
          logs := [] }) ∧
    (∀ j, api ⟨"/api/suggestions/stats/" ++ guildId, "GET", none⟩ = Except.ok j →
      apiSuggestionsStats api guildId =
        { response := Response.jsonResponse 200 j
          calls := [⟨"/api/suggestions/stats/" ++ guildId, "GET", none⟩]
          logs := [] }) ∧
    (∀ j, api ⟨"/api/suggestions/setup", "POST", some body⟩ = Except.ok j →
      apiSuggestionsSetup api body =
        { response := Response.jsonResponse 200 j
          calls := [⟨"/api/suggestions/setup", "POST", some body⟩]
          logs := [] }) ∧
    (∀ j, api ⟨"/api/suggestions/toggle", "POST", some body⟩ = Except.ok j →
      apiSuggestionsToggle api body =
        { response := Response.jsonResponse 200 j
          calls := [⟨"/api/suggestions/toggle", "POST", some body⟩]
          logs := [] }) :=
  ⟨fun j h => apiProxyHandler_ok api _ _ _ _ j h,
    fun j h => apiProxyHandler_ok api _ _ _ _ j h,
    fun j h => apiProxyHandler_ok api _ _ _ _ j h,
    fun j h => apiProxyHandler_ok api _ _ _ _ j h,
    fun j h => apiProxyHandler_ok api _ _ _ _ j h,
    fun j h => apiProxyHandler_ok api _ _ _ _ j h,
    fun j h => apiProxyHandler_ok api _ _ _ _ j h,
    fun j h => apiProxyHandler_ok api _ _ _ _ j h,
    fun j h => apiProxyHandler_ok api _ _ _ _ j h⟩

/-- Witness for C6: with an upstream answering `"data"` everywhere, all
nine proxy routes forward that value with status 200 and one call. -/
theorem api_proxy_forwarding_witness :
    apiGuildChannels apiOkStr "g" =
      { response := Response.jsonResponse 200 (Json.str "data")
        calls := [⟨"/api/guilds/" ++ "g" ++ "/channels", "GET", none⟩]
        logs := [] } ∧
    apiAichatSave apiOkStr Json.null =
      { response := Response.jsonResponse 200 (Json.str "data")
        calls := [⟨"/api/aichat/save", "POST", some Json.null⟩]
        logs := [] } ∧
    apiAnalytics apiOkStr =
      { response := Response.jsonResponse 200 (Json.str "data")
        calls := [⟨"/api/analytics", "GET", none⟩]
        logs := [] } ∧
    apiSuggestionsToggle apiOkStr Json.null =
      { response := Response.jsonResponse 200 (Json.str "data")
        calls := [⟨"/api/suggestions/toggle", "POST", some Json.null⟩]
        logs := [] } :=
  let h := api_proxy_forwarding apiOkStr "g" Json.null
  ⟨h.1 (Json.str "data") rfl, h.2.2.1 (Json.str "data") rfl,
    h.2.2.2.2.1 (Json.str "data") rfl, h.2.2.2.2.2.2.2.2 (Json.str "data") rfl⟩

/-- C7: every JSON proxy route turns a failed upstream call into a 500
whose body carries only the fixed per-endpoint message (no upstream
detail), makes exactly one upstream call (never retried), and logs the
failure with the endpoint context. -/
theorem api_proxy_failure (api : Api) (guildId : String) (body : Json) (msg : String) :
    (api ⟨"/api/guilds/" ++ guildId ++ "/channels", "GET", none⟩ = Except.error msg →
      apiGuildChannels api guildId =
        { response := Response.jsonResponse 500
            (Json.obj [("error", Json.str "Failed to fetch channels")])
          calls := [⟨"/api/guilds/" ++ guildId ++ "/channels", "GET", none⟩]
          logs := ["API Error [" ++ ("/api/guilds/" ++ guildId ++ "/channels") ++ "]: " ++ msg] }) ∧
    (api ⟨"/api/aichat/config/" ++ guildId, "GET", none⟩ = Except.error msg →
      apiAichatConfig api guildId =
        { response := Response.jsonResponse 500
            (Json.obj [("error", Json.str "Failed to fetch config")])
          calls := [⟨"/api/aichat/config/" ++ guildId, "GET", none⟩]
          logs := ["API Error [" ++ ("/api/aichat/config/" ++ guildId) ++ "]: " ++ msg] }) ∧
    (api ⟨"/api/aichat/save", "POST", some body⟩ = Except.error msg →
      apiAichatSave api body =
        { response := Response.jsonResponse 500
            (Json.obj [("error", Json.str "Failed to save config")])
          calls := [⟨"/api/aichat/save", "POST", some body⟩]
          logs := ["API Error [" ++ "/api/aichat/save" ++ "]: " ++ msg] }) ∧
    (api ⟨"/api/aichat/reset-memory", "POST", some body⟩ = Except.error msg →
      apiAichatResetMemory api body =
        { response := Response.jsonResponse 500
            (Json.obj [("error", Json.str "Failed to reset memory")])
          calls := [⟨"/api/aichat/reset-memory", "POST", some body⟩]
          logs := ["API Error [" ++ "/api/aichat/reset-memory" ++ "]: " ++ msg] }) ∧
    (api ⟨"/api/analytics", "GET", none⟩ = Except.error msg →
      apiAnalytics api =
        { response := Response.jsonResponse 500
            (Json.obj [("error", Json.str "Failed to fetch analytics")])
          calls := [⟨"/api/analytics", "GET", none⟩]
          logs := ["API Error [" ++ "/api/analytics" ++ "]: " ++ msg] }) ∧
    (api ⟨"/api/suggestions/config/" ++ guildId, "GET", none⟩ = Except.error msg →
      apiSuggestionsConfig api guildId =
        { response := Response.jsonResponse 500
            (Json.obj [("error", Json.str "Failed to fetch config")])
          calls := [⟨"/api/suggestions/config/" ++ guildId, "GET", none⟩]
          logs := ["API Error [" ++ ("/api/suggestions/config/" ++ guildId) ++ "]: " ++ msg] }) ∧
    (api ⟨"/api/suggestions/stats/" ++ guildId, "GET", none⟩ = Except.error msg →
      apiSuggestionsStats api guildId =
        { response := Response.jsonResponse 500
            (Json.obj [("error", Json.str "Failed to fetch stats")])
          calls := [⟨"/api/suggestions/stats/" ++ guildId, "GET", none⟩]
          logs := ["API Error [" ++ ("/api/suggestions/stats/" ++ guildId) ++ "]: " ++ msg] }) ∧
    (api ⟨"/api/suggestions/setup", "POST", some body⟩ = Except.error msg →
      apiSuggestionsSetup api body =
        { response := Response.jsonResponse 500
            (Json.obj [("error", Json.str "Failed to setup suggestions")])
          calls := [⟨"/api/suggestions/setup", "POST", some body⟩]
          logs := ["API Error [" ++ "/api/suggestions/setup" ++ "]: " ++ msg] }) ∧
    (api ⟨"/api/suggestions/toggle", "POST", some body⟩ = Except.error msg →
      apiSuggestionsToggle api body =
        { response := Response.jsonResponse 500
            (Json.obj [("error", Json.str "Failed to toggle suggestions")])
          calls := [⟨"/api/suggestions/toggle", "POST", some body⟩]
          logs := ["API Error [" ++ "/api/suggestions/toggle" ++ "]: " ++ msg] }) :=
  ⟨fun h => apiProxyHandler_err api _ _ _ _ msg h,
    fun h => apiProxyHandler_err api _ _ _ _ msg h,
    fun h => apiProxyHandler_err api _ _ _ _ msg h,
    fun h => apiProxyHandler_err api _ _ _ _ msg h,
    fun h => apiProxyHandler_err api _ _ _ _ msg h,
    fun h => apiProxyHandler_err api _ _ _ _ msg h,
    fun h => apiProxyHandler_err api _ _ _ _ msg h,
    fun h => apiProxyHandler_err api _ _ _ _ msg h,
    fun h => apiProxyHandler_err api _ _ _ _ msg h⟩

/-- Witness for C7: the upstream is down; two representative routes
answer 500 with their fixed messages, one call each, and the logged
endpoint context. -/
theorem api_proxy_failure_witness :
    apiGuildChannels apiDown "g" =
      { response := Response.jsonResponse 500
          (Json.obj [("error", Json.str "Failed to fetch channels")])
        calls := [⟨"/api/guilds/" ++ "g" ++ "/channels", "GET", none⟩]
        logs := ["API Error [" ++ ("/api/guilds/" ++ "g" ++ "/channels") ++ "]: " ++
          "connect ECONNREFUSED"] } ∧
    apiAichatSave apiDown Json.null =
      { response := Response.jsonResponse 500
          (Json.obj [("error", Json.str "Failed to save config")])
        calls := [⟨"/api/aichat/save", "POST", some Json.null⟩]
        logs := ["API Error [" ++ "/api/aichat/save" ++ "]: " ++ "connect ECONNREFUSED"] } :=
  let h := api_proxy_failure apiDown "g" Json.null "connect ECONNREFUSED"
  ⟨h.1 rfl, h.2.2.1 rfl⟩

/-- C8: every `GuildSummary` in the selector output comes from a
membership of the current identity that passes the `0x20` check, and
the rendered selector list is recomputed from that identity's
memberships (the handler is a function of the request's identity alone;
no store exists that could cache it across requests). -/
theorem selector_invariant (api : Api) (identity : Identity) (s : GuildSummary)
    (h : s ∈ selectorGuildsOf api identity) :
    (∃ g ∈ identity.guilds, g.permissions &&& 0x20 = 0x20 ∧
        s = toGuildSummary (botGuildsOf api) g) ∧
    (dashboardSelector api identity).response =
      Response.renderSelector (selectorGuildsOf api identity) := by
  constructor
  · obtain ⟨g, hg, rfl⟩ := List.mem_map.mp h
    unfold managedGuilds at hg
    have hf := List.mem_filter.mp hg
    exact ⟨g, hf.1, by simpa using hf.2, rfl⟩
  · rfl

/-- Witness for C8: the single summary surfaced for `identAB` comes
from the manage-permitted membership `A`. -/
theorem selector_invariant_witness :
    ∃ g ∈ identAB.guilds, g.permissions &&& 0x20 = 0x20 ∧
      (⟨"A", "Guild A", none, false⟩ : GuildSummary) =
        toGuildSummary (botGuildsOf apiDown) g :=
  (selector_invariant apiDown identAB ⟨"A", "Guild A", none, false⟩ (by decide)).1

/-- C9: logout leaves the session with no identity before the redirect
to `/` is sent, and any subsequent request to any protected route from
that session redirects to `/` exactly as for a never-authenticated
client. -/
theorem logout_resets (session : Option Identity) (api : Api) (r : ProtectedRoute) :
    (logoutHandler session).fst = none ∧
    (logoutHandler session).snd = Response.redirect "/" ∧
    handleProtected api (logoutHandler session).fst r =
      { response := Response.redirect "/", calls := [], logs := [] } :=
  ⟨rfl, rfl, rfl⟩

/-- C10: the JSON proxy routes apply no guild authorization — for every
authenticated identity, including one whose memberships do not contain
the requested guild id, the guild-scoped API routes perform the
upstream call and forward its result. -/
theorem api_routes_no_guild_check (api : Api) (identity : Identity) (guildId : String) :
    (∀ j, api ⟨"/api/guilds/" ++ guildId ++ "/channels", "GET", none⟩ = Except.ok j →
      handleProtected api (some identity) (ProtectedRoute.apiGuildChannels guildId) =
        { response := Response.jsonResponse 200 j
          calls := [⟨"/api/guilds/" ++ guildId ++ "/channels", "GET", none⟩]
          logs := [] }) ∧
    (∀ j, api ⟨"/api/aichat/config/" ++ guildId, "GET", none⟩ = Except.ok j →
      handleProtected api (some identity) (ProtectedRoute.apiAichatConfig guildId) =
        { response := Response.jsonResponse 200 j
          calls := [⟨"/api/aichat/config/" ++ guildId, "GET", none⟩]
          logs := [] }) ∧
    (∀ j, api ⟨"/api/suggestions/config/" ++ guildId, "GET", none⟩ = Except.ok j →
      handleProtected api (some identity) (ProtectedRoute.apiSuggestionsConfig guildId) =
        { response := Response.jsonResponse 200 j
          calls := [⟨"/api/suggestions/config/" ++ guildId, "GET", none⟩]
          logs := [] }) :=
  ⟨fun j h => apiProxyHandler_ok api _ _ _ _ j h,
    fun j h => apiProxyHandler_ok api _ _ _ _ j h,
    fun j h => apiProxyHandler_ok api _ _ _ _ j h⟩

/-- Witness for C10: an identity with no memberships at all still gets
the channels list for guild `g` proxied through. -/
theorem api_routes_no_guild_check_witness :
    handleProtected apiOkStr (some ⟨[]⟩) (ProtectedRoute.apiGuildChannels "g") =
      { response := Response.jsonResponse 200 (Json.str "data")
        calls := [⟨"/api/guilds/" ++ "g" ++ "/channels", "GET", none⟩]
        logs := [] } ∧
    handleProtected apiOkStr (some ⟨[]⟩) (ProtectedRoute.apiAichatConfig "g") =
      { response := Response.jsonResponse 200 (Json.str "data")
        calls := [⟨"/api/aichat/config/" ++ "g", "GET", none⟩]
        logs := [] } :=
  let h := api_routes_no_guild_check apiOkStr ⟨[]⟩ "g"
  ⟨h.1 (Json.str "data") rfl, h.2.1 (Json.str "data") rfl⟩

end Zarkos
